import Mathlib

/-!
# Verification of the PCSX2 Qt concurrency core (EmuThread / MainWindow)

Shallow embedding of the cross-thread lifecycle protocol implemented in
`pcsx2-qt/EmuThread.cpp` and `pcsx2-qt/MainWindow.cpp`: the thread-agnostic
lifecycle operations, the machine state machine driven by the execution
thread, the background controller poll timer, the display update protocol,
and the shutdown polling loop.

Opaque collaborators (VMManager internals, InputManager, the GS thread) are
represented by recording their invocations in traces; their internal effects
that no claim depends on are not modelled.  Functions marked
`Modelled from the spec:` embed behaviour of repository code that is not in
`src/` (only its callers are), following the specification's words.
-/

/-- VMState (pcsx2/VMManager.h): the machine lifecycle state while a machine
is loaded.  `Option VMState` with `none` represents "no machine loaded"
(VMManager::HasValidVM() false / VMState::Shutdown). -/
inductive VMState
  | Initializing
  | Running
  | Paused
  | Stopping
  deriving DecidableEq, Repr

/-- Notifications emitted to the interactive thread (the Qt signals of
EmuThread, plus the single failure notification a failed start emits). -/
inductive Notif
  | starting
  | started
  | paused
  | resumed
  | stopped
  | gameChanged
  | startFailed
  deriving DecidableEq, Repr

/-- Invocations of collaborators that are not part of src/ (VMManager
operations, GS-thread display operations); recorded as a trace. -/
inductive VMCall
  | reset
  | setPaused (paused : Bool)
  | loadSlot (slot : Int)
  | saveSlot (slot : Int)
  | changeDisc (path : String)
  | applySettings
  | updateDisplayWindow
  | waitGS
  deriving DecidableEq, Repr

/-- VMBootParameters (pcsx2/VMManager.h): the only field EmuThread::startVM
inspects is the optional fullscreen override (EmuThread.cpp:109). -/
structure BootParams where
  fullscreen : Option Bool := none
  deriving DecidableEq, Repr

/-- The public lifecycle operations of EmuThread that auto-detect the calling
thread, with their arguments: exactly what a queued cross-thread invocation
carries. -/
inductive LifecycleOp
  | startVM (bp : BootParams)
  | setVMPaused (paused : Bool)
  | shutdownVM (allowSave : Bool) (blocking : Bool)
  | resetVM
  | loadStateFromSlot (slot : Int)
  | saveStateToSlot (slot : Int)
  | changeDisc (path : String)
  | applySettings
  | setFullscreen (fs : Bool)
  deriving DecidableEq, Repr

/-- The observable state of the execution thread's world: the machine state,
EmuThread's mode flags (m_is_fullscreen, m_is_rendering_to_main), the event
loop quit count, the emu thread's pending command queue, the notification
and collaborator-call traces, and whether a fatal assertion fired. -/
structure EmuState where
  vmState : Option VMState := none
  isFullscreen : Bool := false
  isRenderingToMain : Bool := false
  quits : Nat := 0
  queue : List LifecycleOp := []
  emits : List Notif := []
  calls : List VMCall := []
  fatal : Bool := false
  deriving DecidableEq, Repr

/-- VMManager::HasValidVM(): a machine is loaded. -/
def EmuState.hasVM (s : EmuState) : Bool :=
  s.vmState.isSome

/-- Environment read by the lifecycle bodies: the base settings
"UI/StartFullscreen" and "UI/RenderToMainWindow", and the success of machine
resource initialization (the outcome of VMManager::Initialize, an input of
the model). -/
structure Env where
  startFullscreen : Bool
  renderToMainWindow : Bool
  initOk : Bool
  deriving DecidableEq, Repr

/-- Appending one command to the execution thread's queue: what
QMetaObject::invokeMethod with Qt::QueuedConnection does when called from a
thread other than the execution thread. -/
def enqueueOp (op : LifecycleOp) (s : EmuState) : EmuState :=
  { s with queue := s.queue ++ [op] }

/-- Result of a public lifecycle call: the resulting state and whether the
call returned to its caller without entering a wait loop. -/
structure DispatchResult where
  state : EmuState
  returnedImmediately : Bool
  deriving DecidableEq, Repr

/-- Modelled from the spec: VMManager::Initialize (pcsx2/VMManager.cpp, not
in src/).  Spec 4.2/7: on success the machine is loaded (Initializing state,
resources allocated); "failure aborts with no state change (no machine
loaded)" and "emits one failure notification". -/
def VMManager.initVM (ok : Bool) (s : EmuState) : EmuState :=
  if ok then { s with vmState := some VMState.Initializing }
  else { s with emits := s.emits ++ [Notif.startFailed] }

/-- EmuThread::startVM (EmuThread.cpp:95-116).  From a foreign thread the
identical invocation is queued and the call returns.  On the execution
thread: assert no machine is loaded, emit onVMStarting, compute the mode
flags from the boot parameters and base settings, initialize the machine
(early return on failure), set the state to Running and quit the idle event
loop. -/
def EmuThread.startVM (env : Env) (onEmuThread : Bool) (bp : BootParams) (s : EmuState) :
    DispatchResult :=
  if !onEmuThread then
    ⟨enqueueOp (LifecycleOp.startVM bp) s, true⟩
  else
    if s.hasVM then ⟨{ s with fatal := true }, true⟩
    else
      let s1 := { s with emits := s.emits ++ [Notif.starting] }
      let fs := bp.fullscreen.getD env.startFullscreen
      let rtm := !fs && env.renderToMainWindow
      let s2 := { s1 with isFullscreen := fs, isRenderingToMain := rtm }
      let s3 := VMManager.initVM env.initOk s2
      if !env.initOk then ⟨s3, true⟩
      else ⟨{ s3 with vmState := some VMState.Running, quits := s3.quits + 1 }, true⟩

/-- EmuThread::resetVM (EmuThread.cpp:118-127): queue from a foreign thread;
on the execution thread invoke VMManager::Reset (no validity guard in the
caller). -/
def EmuThread.resetVM (onEmuThread : Bool) (s : EmuState) : DispatchResult :=
  if !onEmuThread then
    ⟨enqueueOp LifecycleOp.resetVM s, true⟩
  else
    ⟨{ s with calls := s.calls ++ [VMCall.reset] }, true⟩

/-- EmuThread::setVMPaused (EmuThread.cpp:129-138): queue from a foreign
thread; on the execution thread invoke VMManager::SetPaused. -/
def EmuThread.setVMPaused (onEmuThread : Bool) (paused : Bool) (s : EmuState) :
    DispatchResult :=
  if !onEmuThread then
    ⟨enqueueOp (LifecycleOp.setVMPaused paused) s, true⟩
  else
    ⟨{ s with calls := s.calls ++ [VMCall.setPaused paused] }, true⟩

/-- EmuThread::shutdownVM (EmuThread.cpp:140-164).  From a foreign thread the
invocation is queued; with `blocking` set the caller then pumps its event
loop while VMManager::HasValidVM() holds, so it does not return immediately
when a machine is loaded.  On the execution thread: from Paused quit the
cooperative wait, from any state other than Paused or Running return with no
change, and otherwise set the state to Stopping. -/
def EmuThread.shutdownVM (onEmuThread : Bool) (allowSave blocking : Bool) (s : EmuState) :
    DispatchResult :=
  if !onEmuThread then
    ⟨enqueueOp (LifecycleOp.shutdownVM allowSave blocking) s, !(blocking && s.hasVM)⟩
  else
    if s.vmState = some VMState.Paused then
      ⟨{ s with vmState := some VMState.Stopping, quits := s.quits + 1 }, true⟩
    else if s.vmState ≠ some VMState.Running then
      ⟨s, true⟩
    else
      ⟨{ s with vmState := some VMState.Stopping }, true⟩

/-- EmuThread::loadStateFromSlot (EmuThread.cpp:180-192): queue from a
foreign thread; on the execution thread return unchanged when no machine is
loaded, otherwise invoke VMManager::LoadStateFromSlot. -/
def EmuThread.loadStateFromSlot (onEmuThread : Bool) (slot : Int) (s : EmuState) :
    DispatchResult :=
  if !onEmuThread then
    ⟨enqueueOp (LifecycleOp.loadStateFromSlot slot) s, true⟩
  else
    if !s.hasVM then ⟨s, true⟩
    else ⟨{ s with calls := s.calls ++ [VMCall.loadSlot slot] }, true⟩

/-- EmuThread::saveStateToSlot (EmuThread.cpp:212-224): queue from a foreign
thread; on the execution thread return unchanged when no machine is loaded,
otherwise invoke VMManager::SaveStateToSlot. -/
def EmuThread.saveStateToSlot (onEmuThread : Bool) (slot : Int) (s : EmuState) :
    DispatchResult :=
  if !onEmuThread then
    ⟨enqueueOp (LifecycleOp.saveStateToSlot slot) s, true⟩
  else
    if !s.hasVM then ⟨s, true⟩
    else ⟨{ s with calls := s.calls ++ [VMCall.saveSlot slot] }, true⟩

/-- EmuThread::changeDisc (EmuThread.cpp:410-422): queue from a foreign
thread; on the execution thread return unchanged when no machine is loaded,
otherwise invoke VMManager::ChangeDisc. -/
def EmuThread.changeDisc (onEmuThread : Bool) (path : String) (s : EmuState) :
    DispatchResult :=
  if !onEmuThread then
    ⟨enqueueOp (LifecycleOp.changeDisc path) s, true⟩
  else
    if !s.hasVM then ⟨s, true⟩
    else ⟨{ s with calls := s.calls ++ [VMCall.changeDisc path] }, true⟩

/-- EmuThread::checkForSettingChanges (EmuThread.cpp:368-380): while a
machine is loaded and not fullscreen, a changed "UI/RenderToMainWindow"
setting updates m_is_rendering_to_main and triggers a display window update
on the GS thread. -/
def EmuThread.checkForSettingChanges (env : Env) (s : EmuState) : EmuState :=
  if s.hasVM then
    if !s.isFullscreen && (s.isRenderingToMain != env.renderToMainWindow) then
      { s with isRenderingToMain := env.renderToMainWindow,
               calls := s.calls ++ [VMCall.updateDisplayWindow, VMCall.waitGS] }
    else s
  else s

/-- EmuThread::applySettings (EmuThread.cpp:356-366): queue from a foreign
thread; on the execution thread run checkForSettingChanges then
VMManager::ApplySettings. -/
def EmuThread.applySettings (env : Env) (onEmuThread : Bool) (s : EmuState) :
    DispatchResult :=
  if !onEmuThread then
    ⟨enqueueOp LifecycleOp.applySettings s, true⟩
  else
    let s1 := EmuThread.checkForSettingChanges env s
    ⟨{ s1 with calls := s1.calls ++ [VMCall.applySettings] }, true⟩

/-- EmuThread::setFullscreen (EmuThread.cpp:339-354): queue from a foreign
thread; on the execution thread return unchanged when no machine is loaded
or the flag already matches, otherwise update m_is_fullscreen and trigger a
display window update on the GS thread. -/
def EmuThread.setFullscreen (onEmuThread : Bool) (fs : Bool) (s : EmuState) :
    DispatchResult :=
  if !onEmuThread then
    ⟨enqueueOp (LifecycleOp.setFullscreen fs) s, true⟩
  else
    if !s.hasVM || (s.isFullscreen == fs) then ⟨s, true⟩
    else
      ⟨{ s with isFullscreen := fs,
                calls := s.calls ++ [VMCall.updateDisplayWindow, VMCall.waitGS] }, true⟩

/-- Dispatch table from a queued/requested operation to the corresponding
EmuThread method. -/
def EmuThread.callOp (env : Env) (onEmuThread : Bool) : LifecycleOp → EmuState → DispatchResult
  | LifecycleOp.startVM bp => EmuThread.startVM env onEmuThread bp
  | LifecycleOp.setVMPaused b => EmuThread.setVMPaused onEmuThread b
  | LifecycleOp.shutdownVM a b => EmuThread.shutdownVM onEmuThread a b
  | LifecycleOp.resetVM => EmuThread.resetVM onEmuThread
  | LifecycleOp.loadStateFromSlot n => EmuThread.loadStateFromSlot onEmuThread n
  | LifecycleOp.saveStateToSlot n => EmuThread.saveStateToSlot onEmuThread n
  | LifecycleOp.changeDisc p => EmuThread.changeDisc onEmuThread p
  | LifecycleOp.applySettings => EmuThread.applySettings env onEmuThread
  | LifecycleOp.setFullscreen b => EmuThread.setFullscreen onEmuThread b

/-- The execution thread dequeues and executes the first queued command: Qt
delivers a queued invocation on the target thread, where isOnEmuThread()
holds, so the same method runs its body in place. -/
def EmuThread.drainOne (env : Env) (s : EmuState) : EmuState :=
  match s.queue with
  | [] => s
  | op :: rest => (EmuThread.callOp env true op { s with queue := rest }).state

/-- An operation that, called from a foreign thread, waits before returning:
only shutdownVM with `blocking` set (EmuThread.cpp:147-152). -/
def LifecycleOp.isBlockingShutdown : LifecycleOp → Bool
  | LifecycleOp.shutdownVM _ b => b
  | _ => false

/-- State of the background controller poll timer and the interactive-thread
notification trace, as mutated by the Host::OnVM* handlers
(EmuThread.cpp:674-703). -/
structure HostState where
  pollerActive : Bool
  uiEmits : List Notif
  quits : Nat
  deriving DecidableEq, Repr

/-- EmuThread::startBackgroundControllerPollTimer (EmuThread.cpp:307-313):
no-op when already active, otherwise start the coarse poll timer. -/
def EmuThread.startBackgroundControllerPollTimer (s : HostState) : HostState :=
  if s.pollerActive then s else { s with pollerActive := true }

/-- EmuThread::stopBackgroundControllerPollTimer (EmuThread.cpp:315-321):
no-op when not active, otherwise stop the poll timer. -/
def EmuThread.stopBackgroundControllerPollTimer (s : HostState) : HostState :=
  if !s.pollerActive then s else { s with pollerActive := false }

/-- Host::OnVMStarting (EmuThread.cpp:674-678): stop the poll timer, then
emit the starting notification. -/
def Host.OnVMStarting (s : HostState) : HostState :=
  let s1 := EmuThread.stopBackgroundControllerPollTimer s
  { s1 with uiEmits := s1.uiEmits ++ [Notif.starting] }

/-- Host::OnVMStarted (EmuThread.cpp:680-683): emit the started
notification; the poll timer is untouched. -/
def Host.OnVMStarted (s : HostState) : HostState :=
  { s with uiEmits := s.uiEmits ++ [Notif.started] }

/-- Host::OnVMDestroyed (EmuThread.cpp:685-689): emit the stopped
notification, then start the poll timer. -/
def Host.OnVMDestroyed (s : HostState) : HostState :=
  let s1 := { s with uiEmits := s.uiEmits ++ [Notif.stopped] }
  EmuThread.startBackgroundControllerPollTimer s1

/-- Host::OnVMPaused (EmuThread.cpp:691-695): start the poll timer, then
emit the paused notification. -/
def Host.OnVMPaused (s : HostState) : HostState :=
  let s1 := EmuThread.startBackgroundControllerPollTimer s
  { s1 with uiEmits := s1.uiEmits ++ [Notif.paused] }

/-- Host::OnVMResumed (EmuThread.cpp:697-703): quit the event loop, stop the
poll timer, then emit the resumed notification. -/
def Host.OnVMResumed (s : HostState) : HostState :=
  let s1 := { s with quits := s.quits + 1 }
  let s2 := EmuThread.stopBackgroundControllerPollTimer s1
  { s2 with uiEmits := s2.uiEmits ++ [Notif.resumed] }

/-- The five machine-state transition notifications. -/
def Notif.isTransition : Notif → Bool
  | Notif.starting => true
  | Notif.started => true
  | Notif.paused => true
  | Notif.resumed => true
  | Notif.stopped => true
  | _ => false

/-- Dispatch from a transition notification to its Host::OnVM* handler. -/
def Host.applyTransitionNotif : Notif → HostState → HostState
  | Notif.starting => Host.OnVMStarting
  | Notif.started => Host.OnVMStarted
  | Notif.paused => Host.OnVMPaused
  | Notif.resumed => Host.OnVMResumed
  | Notif.stopped => Host.OnVMDestroyed
  | _ => fun s => s

/-- Modelled from the spec: the machine state observable immediately after
each transition notification handler returns.  VMManager
(pcsx2/VMManager.cpp, not in src/) drives the notifications: the starting
and started notifications fire during initialization, before the
Initializing-to-Running transition that EmuThread::startVM performs only
after VMManager::Initialize returns (EmuThread.cpp:111-114; spec 4.2:
"Initializing -> Running: after successful resource allocation and settings
application"); paused fires with the machine Paused, resumed with it back to
Running, and stopped after teardown completes, when no machine is loaded
(spec 4.2: "Stopping -> absent: teardown completes"). -/
def notifMachineState : Notif → Option VMState
  | Notif.starting => some VMState.Initializing
  | Notif.started => some VMState.Initializing
  | Notif.paused => some VMState.Paused
  | Notif.resumed => some VMState.Running
  | Notif.stopped => none
  | _ => none

/-- Progress of the execution thread through the shutdown protocol, observed
between iterations of the interactive thread's polling loop in
EmuThread::stop (EmuThread.cpp:76-84). -/
inductive StopPhase
  /-- stopInThread is queued on the execution thread but not yet executed. -/
  | stopQueued
  /-- destroyVM reached the blocking display-destroy round-trip back to the
  interactive thread (releaseHostDisplay emits onDestroyDisplayRequested over
  a Qt::BlockingQueuedConnection, MainWindow.cpp:201) and the execution
  thread is suspended until the interactive thread services it. -/
  | blockedOnDisplayDestroy
  /-- stopInThread finished: event loop quit, shutdown flag set, run()
  performed its final cleanup and the thread exited (isRunning() false). -/
  | exited
  deriving DecidableEq, Repr

/-- Joint state of the shutdown protocol: the execution thread's phase and
whether a machine was loaded when the stop command arrived. -/
structure StopSim where
  phase : StopPhase
  vmValid : Bool
  deriving DecidableEq, Repr

/-- One iteration of the interactive thread's polling loop
(QApplication::processEvents(ExcludeUserInputEvents, 1), EmuThread.cpp:83):
pumping the interactive event loop services any pending blocking
display-destroy round-trip, after which the execution thread advances to its
next suspension point or exits.  With no machine loaded, stopInThread
(EmuThread.cpp:86-93) skips destroyVM and the thread exits directly. -/
def EmuThread.stopIteration (s : StopSim) : StopSim :=
  match s.phase with
  | StopPhase.stopQueued =>
      if s.vmValid then { phase := StopPhase.blockedOnDisplayDestroy, vmValid := true }
      else { phase := StopPhase.exited, vmValid := false }
  | StopPhase.blockedOnDisplayDestroy => { phase := StopPhase.exited, vmValid := false }
  | StopPhase.exited => s

/-- The interactive thread's polling loop in EmuThread::stop
(EmuThread.cpp:82-83): while the execution thread is running, process events
with a 1 ms timeout.  Returns the list of the bounded waits performed (each
entry is the millisecond timeout of one processEvents call), or `none` if
the fuel ran out before the execution thread exited. -/
def EmuThread.stopLoop : Nat → StopSim → Option (List Nat)
  | 0, _ => none
  | Nat.succ fuel, s =>
      if s.phase = StopPhase.exited then some []
      else (EmuThread.stopLoop fuel (EmuThread.stopIteration s)).map (fun ws => 1 :: ws)

/-- The single fire-and-forget command EmuThread::stop queues to the
execution thread (EmuThread.cpp:81). -/
inductive StopCmd
  | stopInThread
  deriving DecidableEq, Repr

/-- EmuThread::start (EmuThread.cpp:65-74) after its assertion passes:
create the thread object, start the QThread, block on the one-shot readiness
semaphore, move the object to its own thread, and wire the cross-thread
signal connections. -/
inductive StartStep
  | createThread
  | startThread
  | waitReadySemaphore
  | moveToEmuThread
  | connectSignals
  deriving DecidableEq, Repr

/-- EmuThread::start (EmuThread.cpp:65-74): pxAssertRel(!g_emu_thread) makes
a double start a fatal process abort (`none`); otherwise the start sequence
runs. -/
def EmuThread.start (threadExists : Bool) : Option (List StartStep) :=
  if threadExists then none
  else some [StartStep.createThread, StartStep.startThread, StartStep.waitReadySemaphore,
             StartStep.moveToEmuThread, StartStep.connectSignals]

/-- EmuThread::stop (EmuThread.cpp:76-84): pxAssertRel(g_emu_thread) and
pxAssertRel(!isOnEmuThread()) make a stop without a thread, or a stop issued
from the execution thread itself, fatal process aborts (`none`); otherwise
the stop command is queued fire-and-forget and the caller polls with bounded
1 ms waits until the execution thread exits. -/
def EmuThread.stopRequest (threadExists onEmuThread vmValid : Bool) :
    Option (List StopCmd × Option (List Nat)) :=
  if !threadExists then none
  else if onEmuThread then none
  else some ([StopCmd.stopInThread],
             EmuThread.stopLoop 4 { phase := StopPhase.stopQueued, vmValid := vmValid })

/-- Actions of the execution thread during EmuThread::updateDisplay
(EmuThread.cpp:558-576), in program order. -/
inductive GSAction
  /-- HostDisplay::DoneRenderContextCurrent: release the render context. -/
  | doneRenderContextCurrent
  /-- emit onUpdateDisplayRequested over a Qt::BlockingQueuedConnection
  (MainWindow.cpp:200): the blocking round-trip during which the interactive
  thread reassigns the surface. -/
  | blockingUpdateRequest
  /-- HostDisplay::MakeRenderContextCurrent: re-acquire the render
  context. -/
  | makeRenderContextCurrent
  /-- connectDisplaySignals on the freshly created widget. -/
  | connectSignals
  /-- pxFailRel: fatal abort when the widget or the context re-acquisition
  failed. -/
  | fatalError
  deriving DecidableEq, Repr

/-- EmuThread::updateDisplay (EmuThread.cpp:558-576) as its ordered action
trace: release the context, perform the blocking update round-trip, then
(short-circuit) re-acquire the context if a widget came back; a missing
widget or a failed re-acquisition is fatal. -/
def EmuThread.updateDisplay (widgetOk makeCurrentOk : Bool) : List GSAction :=
  [GSAction.doneRenderContextCurrent, GSAction.blockingUpdateRequest] ++
    (if widgetOk then
      GSAction.makeRenderContextCurrent ::
        (if makeCurrentOk then [GSAction.connectSignals] else [GSAction.fatalError])
    else [GSAction.fatalError])

/-- Whether the execution thread holds the render context at the moment the
blocking update request runs, given it holds it on entry (`h`): fold the
trace up to the first blockingUpdateRequest. -/
def contextHeldAtRequest (h : Bool) : List GSAction → Option Bool
  | [] => none
  | GSAction.blockingUpdateRequest :: _ => some h
  | GSAction.doneRenderContextCurrent :: rest => contextHeldAtRequest false rest
  | GSAction.makeRenderContextCurrent :: rest => contextHeldAtRequest true rest
  | _ :: rest => contextHeldAtRequest h rest

/-- Environment read by MainWindow::updateDisplay (MainWindow.cpp:924-1021):
DisplayContainer::IsNeeded (DisplayWidget.cpp, a separate source file of the
repository; kept as an arbitrary function of the requested mode), whether the
"EmuCore/GS FullscreenMode" setting is nonempty, whether the host display
supports exclusive fullscreen and currently is in exclusive fullscreen, and
the outcomes of the fallible steps (getWindowInfo, ChangeRenderWindow). -/
structure DisplayEnv where
  isNeeded : Bool → Bool → Bool
  fullscreenModeSet : Bool
  supportsFullscreen : Bool
  hostDisplayIsFullscreen : Bool
  windowInfoOk : Bool
  changeRenderWindowOk : Bool

/-- The current display widget's observable state when updateDisplay runs:
m_display_widget->isFullScreen(), whether it has a parent widget (embedded
in the main window), and whether m_display_container is non-null. -/
structure DisplayState where
  widgetFullscreen : Bool
  widgetHasParent : Bool
  hasContainer : Bool
  deriving DecidableEq, Repr

/-- The three outcomes of MainWindow::updateDisplay: return the existing
widget unchanged, transition in place without surface teardown, or destroy
the render surface and widget and recreate both. -/
inductive UpdateAction
  | returnExisting
  | inPlaceTransition
  | destroyAndRecreate
  deriving DecidableEq, Repr

/-- Side effects MainWindow::updateDisplay performs on the window system and
host display, in program order. -/
inductive WEffect
  /-- host_display->SetFullscreen(false, ...): leave exclusive fullscreen. -/
  | exitExclusiveFullscreen
  | showFullScreen
  | showNormal
  | restoreGeometry
  /-- host_display->DestroyRenderSurface(). -/
  | destroyRenderSurface
  /-- destroyDisplayWidget(): tear down the widget and container. -/
  | destroyWidget
  | createContainer
  | createWidget
  /-- insert the widget into the main window's stack (render-to-main). -/
  | embedIntoMain
  /-- host_display->ChangeRenderWindow(wi): recreate the surface on the new
  widget. -/
  | changeRenderWindow
  /-- setDisplayFullscreen(mode): enter exclusive fullscreen. -/
  | setExclusiveFullscreen
  | setFocus
  /-- m_ui.actionFullscreen->setChecked(fullscreen). -/
  | syncFullscreenAction
  /-- pxFailRel("Failed to recreate surface on new widget."). -/
  | fatalError
  deriving DecidableEq, Repr

/-- MainWindow::updateDisplay (MainWindow.cpp:924-1021): decide between
returning the existing widget (mode unchanged), an in-place fullscreen /
windowed transition (only when neither the current nor the requested mode
renders to the main window, exclusive fullscreen is not involved, and the
container need is unchanged), or destroying the render surface and widget
and recreating both; returns the decision and the ordered effect trace. -/
def MainWindow.updateDisplay (env : DisplayEnv) (d : DisplayState)
    (fullscreen renderToMain : Bool) : UpdateAction × List WEffect :=
  let is_fullscreen := d.widgetFullscreen
  let is_rendering_to_main := !is_fullscreen && d.widgetHasParent
  let is_exclusive_fullscreen :=
    fullscreen && env.fullscreenModeSet && env.supportsFullscreen
  if (fullscreen == is_fullscreen) && (is_rendering_to_main == renderToMain) then
    (UpdateAction.returnExisting, [])
  else
    let has_container := d.hasContainer
    let needs_container := env.isNeeded fullscreen renderToMain
    if !is_rendering_to_main && !renderToMain && !is_exclusive_fullscreen &&
        (has_container == needs_container) then
      (UpdateAction.inPlaceTransition,
        (if env.hostDisplayIsFullscreen then [WEffect.exitExclusiveFullscreen] else []) ++
          (if fullscreen then [WEffect.showFullScreen]
           else [WEffect.restoreGeometry, WEffect.showNormal]))
    else
      (UpdateAction.destroyAndRecreate,
        [WEffect.destroyRenderSurface, WEffect.destroyWidget] ++
          (if needs_container then [WEffect.createContainer, WEffect.createWidget]
           else [WEffect.createWidget]) ++
          (if fullscreen then
            (if is_exclusive_fullscreen then [WEffect.showNormal]
             else [WEffect.showFullScreen])
           else if !renderToMain then [WEffect.restoreGeometry, WEffect.showNormal]
           else [WEffect.embedIntoMain]) ++
          (if !env.windowInfoOk then [WEffect.destroyWidget]
           else if !env.changeRenderWindowOk then [WEffect.changeRenderWindow, WEffect.fatalError]
           else
             [WEffect.changeRenderWindow] ++
               (if is_exclusive_fullscreen then [WEffect.setExclusiveFullscreen] else []) ++
               [WEffect.setFocus, WEffect.syncFullscreenAction]))

/-- The claim's wording of the in-place condition for a display update: the
embedding status is unchanged in the sense that neither the current nor the
requested mode renders to the main surface, exclusive fullscreen is not
involved, and the container need is unchanged.  Stated from the
specification's words, to be compared with the decision the code takes. -/
def specInPlaceCondition (env : DisplayEnv) (d : DisplayState)
    (fullscreen renderToMain : Bool) : Bool :=
  let is_rendering_to_main := !d.widgetFullscreen && d.widgetHasParent
  let is_exclusive_fullscreen :=
    fullscreen && env.fullscreenModeSet && env.supportsFullscreen
  !is_rendering_to_main && !renderToMain && !is_exclusive_fullscreen &&
    (d.hasContainer == env.isNeeded fullscreen renderToMain)

/-- The requested mode equals the currently displayed mode, as
MainWindow::updateDisplay computes it (MainWindow.cpp:927-931). -/
def sameDisplayMode (d : DisplayState) (fullscreen renderToMain : Bool) : Bool :=
  (fullscreen == d.widgetFullscreen) &&
    ((!d.widgetFullscreen && d.widgetHasParent) == renderToMain)

theorem pollTimer_start_active (s : HostState) :
    (EmuThread.startBackgroundControllerPollTimer s).pollerActive = true := by
  unfold EmuThread.startBackgroundControllerPollTimer
  split
  · next h => exact h
  · rfl

theorem pollTimer_stop_inactive (s : HostState) :
    (EmuThread.stopBackgroundControllerPollTimer s).pollerActive = false := by
  unfold EmuThread.stopBackgroundControllerPollTimer
  split
  · next h => simpa using h
  · rfl

/-- C5: the interactive-thread stop request queues one fire-and-forget stop
command and then only polls with bounded 1 ms event-pumping waits until the
execution thread exits; with a machine loaded the blocking display-destroy
round-trip issued by teardown is serviced by the pumping, and the loop
terminates after at most two bounded waits (one without a machine). -/
theorem c5_stop_bounded_polling :
    ∀ vmValid : Bool,
      EmuThread.stopRequest true false vmValid =
        some ([StopCmd.stopInThread], some (if vmValid then [1, 1] else [1])) := by
  decide

/-- C6: in every display-update round-trip of the execution thread, the
render context is released first, the blocking update request comes second,
and any context re-acquisition happens strictly after the request; hence the
execution thread does not hold the context while the interactive thread
services the request. -/
theorem c6_context_release_order :
    ∀ widgetOk makeCurrentOk : Bool,
      (EmuThread.updateDisplay widgetOk makeCurrentOk).take 2 =
        [GSAction.doneRenderContextCurrent, GSAction.blockingUpdateRequest] ∧
      contextHeldAtRequest true (EmuThread.updateDisplay widgetOk makeCurrentOk) =
        some false ∧
      ∀ i, i < (EmuThread.updateDisplay widgetOk makeCurrentOk).length →
        (EmuThread.updateDisplay widgetOk makeCurrentOk).get? i =
          some GSAction.makeRenderContextCurrent → 2 ≤ i := by
  decide

theorem c6_context_release_order_witness :
    contextHeldAtRequest true (EmuThread.updateDisplay true true) = some false ∧ 2 ≤ 2 :=
  ⟨(c6_context_release_order true true).2.1,
   (c6_context_release_order true true).2.2 2 (by decide) (by decide)⟩

/-- C9: a double start of the execution thread aborts the process
(EmuThread::start's assertion), as does invoking the external stop entry
point from the execution thread itself; with no execution thread in
existence, start's assertion never fires and the start sequence runs. -/
theorem c9_fatal_preconditions :
    ∀ vmValid : Bool,
      EmuThread.start true = none ∧
      EmuThread.stopRequest true true vmValid = none ∧
      EmuThread.start false =
        some [StartStep.createThread, StartStep.startThread, StartStep.waitReadySemaphore,
              StartStep.moveToEmuThread, StartStep.connectSignals] := by
  decide

/-- C8: with no machine loaded, loadStateFromSlot on the execution thread is
a no-op: the state, including the notification and collaborator-call traces,
is returned unchanged. -/
theorem c8_load_slot_noop :
    ∀ (slot : Int) (s : EmuState), s.vmState = none →
      (EmuThread.loadStateFromSlot true slot s).state = s := by
  intro slot s h
  simp [EmuThread.loadStateFromSlot, EmuState.hasVM, h]

theorem c8_load_slot_noop_witness :
    (EmuThread.loadStateFromSlot true 3 {}).state = {} :=
  c8_load_slot_noop 3 {} rfl

/-- C7: the shutdown handler on the execution thread sets the machine state
to Stopping exactly from Running or Paused; from Paused it additionally
quits the cooperative wait's event loop; from any other state, including no
machine loaded, it returns with no state change. -/
theorem c7_shutdown_transitions :
    ∀ (allowSave blocking : Bool) (s : EmuState),
      (s.vmState = some VMState.Running →
        (EmuThread.shutdownVM true allowSave blocking s).state =
          { s with vmState := some VMState.Stopping }) ∧
      (s.vmState = some VMState.Paused →
        (EmuThread.shutdownVM true allowSave blocking s).state =
          { s with vmState := some VMState.Stopping, quits := s.quits + 1 }) ∧
      (s.vmState ≠ some VMState.Running → s.vmState ≠ some VMState.Paused →
        (EmuThread.shutdownVM true allowSave blocking s).state = s) := by
  intro allowSave blocking s
  refine ⟨fun h => ?_, fun h => ?_, fun h1 h2 => ?_⟩
  · simp [EmuThread.shutdownVM, h]
  · simp [EmuThread.shutdownVM, h]
  · simp [EmuThread.shutdownVM, h1, h2]

theorem c7_shutdown_transitions_witness :
    (EmuThread.shutdownVM true true false { vmState := some VMState.Running }).state =
      { vmState := some VMState.Stopping } :=
  (c7_shutdown_transitions true false { vmState := some VMState.Running }).1 rfl

/-- C4: when machine-resource initialization fails during a start with no
machine loaded, startVM returns without making the machine Running, leaves
no machine loaded, emits exactly one failure notification (after the
starting notification), and does not quit the idle event loop. -/
theorem c4_failed_start :
    ∀ (env : Env) (bp : BootParams) (s : EmuState),
      env.initOk = false → s.vmState = none →
      (EmuThread.startVM env true bp s).state.vmState = none ∧
      (EmuThread.startVM env true bp s).state.emits =
        s.emits ++ [Notif.starting, Notif.startFailed] ∧
      (EmuThread.startVM env true bp s).state.quits = s.quits := by
  intro env bp s h1 h2
  simp [EmuThread.startVM, VMManager.initVM, EmuState.hasVM, h1, h2]

theorem c4_failed_start_witness :
    (EmuThread.startVM ⟨false, true, false⟩ true ⟨none⟩ {}).state.vmState = none ∧
    (EmuThread.startVM ⟨false, true, false⟩ true ⟨none⟩ {}).state.emits =
      [Notif.starting, Notif.startFailed] :=
  ⟨(c4_failed_start ⟨false, true, false⟩ ⟨none⟩ {} rfl rfl).1,
   (c4_failed_start ⟨false, true, false⟩ ⟨none⟩ {} rfl rfl).2.1⟩

/-- C2 fails as stated: immediately after the starting notification handler
returns, the poll timer has been stopped although the machine state is
Initializing, not Running, so "poller active iff machine state is not
Running" does not hold at that point. -/
theorem c2_poller_iff_cex :
    ¬ (((Host.OnVMStarting { pollerActive := true, uiEmits := [], quits := 0 }).pollerActive
          = true) ↔
        notifMachineState Notif.starting ≠ some VMState.Running) := by
  decide

/-- C2 amended: immediately after every machine-state transition
notification handler returns, the poll timer is active iff the machine state
is neither Initializing nor Running (no machine loaded counting as neither);
the started handler does not touch the timer, so for it this relies on the
timer having been stopped by the preceding starting notification. -/
theorem c2_poller_iff_amended :
    ∀ (n : Notif) (s : HostState), n.isTransition = true →
      (n = Notif.started → s.pollerActive = false) →
      ((Host.applyTransitionNotif n s).pollerActive = true ↔
        (notifMachineState n ≠ some VMState.Initializing ∧
         notifMachineState n ≠ some VMState.Running)) := by
  intro n s htr hstarted
  cases n
  · simp [Host.applyTransitionNotif, Host.OnVMStarting, notifMachineState,
      pollTimer_stop_inactive]
  · simp [Host.applyTransitionNotif, Host.OnVMStarted, notifMachineState,
      hstarted rfl]
  · simp [Host.applyTransitionNotif, Host.OnVMPaused, notifMachineState,
      pollTimer_start_active]
  · simp [Host.applyTransitionNotif, Host.OnVMResumed, notifMachineState,
      pollTimer_stop_inactive]
  · simp [Host.applyTransitionNotif, Host.OnVMDestroyed, notifMachineState,
      pollTimer_start_active]
  · simp [Notif.isTransition] at htr
  · simp [Notif.isTransition] at htr

theorem c2_poller_iff_amended_witness :
    (Host.applyTransitionNotif Notif.paused
        { pollerActive := false, uiEmits := [], quits := 0 }).pollerActive = true ↔
      (notifMachineState Notif.paused ≠ some VMState.Initializing ∧
       notifMachineState Notif.paused ≠ some VMState.Running) :=
  c2_poller_iff_amended Notif.paused { pollerActive := false, uiEmits := [], quits := 0 }
    (by decide) (fun h => Notif.noConfusion h)

/-- C10: a display-update request whose mode equals the currently displayed
mode returns the existing widget with no effects: no surface teardown, no
widget recreation, no window-state change. -/
theorem c10_same_mode_noop :
    ∀ (env : DisplayEnv) (d : DisplayState) (fullscreen renderToMain : Bool),
      sameDisplayMode d fullscreen renderToMain = true →
      MainWindow.updateDisplay env d fullscreen renderToMain =
        (UpdateAction.returnExisting, []) := by
  intro env d fullscreen renderToMain h
  simp only [sameDisplayMode] at h
  simp [MainWindow.updateDisplay, h]

theorem c10_same_mode_noop_witness :
    MainWindow.updateDisplay ⟨fun _ _ => false, false, false, false, true, true⟩
        ⟨false, false, false⟩ false false = (UpdateAction.returnExisting, []) :=
  c10_same_mode_noop ⟨fun _ _ => false, false, false, false, true, true⟩
    ⟨false, false, false⟩ false false rfl

/-- C3: for a display-update request whose mode differs from the current
one, the update is an in-place transition exactly when neither the current
nor the requested mode renders to the main surface, exclusive fullscreen is
not involved, and the container need is unchanged — and then neither the
render surface nor the widget is destroyed; in every other differing case
the render surface and widget are destroyed and the widget recreated. -/
theorem c3_inplace_vs_recreate :
    ∀ (env : DisplayEnv) (d : DisplayState) (fullscreen renderToMain : Bool),
      sameDisplayMode d fullscreen renderToMain = false →
      (specInPlaceCondition env d fullscreen renderToMain = true →
        (MainWindow.updateDisplay env d fullscreen renderToMain).1 =
          UpdateAction.inPlaceTransition ∧
        WEffect.destroyRenderSurface ∉
          (MainWindow.updateDisplay env d fullscreen renderToMain).2 ∧
        WEffect.destroyWidget ∉
          (MainWindow.updateDisplay env d fullscreen renderToMain).2) ∧
      (specInPlaceCondition env d fullscreen renderToMain = false →
        (MainWindow.updateDisplay env d fullscreen renderToMain).1 =
          UpdateAction.destroyAndRecreate ∧
        WEffect.destroyRenderSurface ∈
          (MainWindow.updateDisplay env d fullscreen renderToMain).2 ∧
        WEffect.destroyWidget ∈
          (MainWindow.updateDisplay env d fullscreen renderToMain).2 ∧
        WEffect.createWidget ∈
          (MainWindow.updateDisplay env d fullscreen renderToMain).2) := by
  intro env d fullscreen renderToMain hdiff
  simp only [sameDisplayMode] at hdiff
  constructor
  · intro hcond
    simp only [specInPlaceCondition] at hcond
    simp only [MainWindow.updateDisplay, hdiff, hcond]
    cases env.hostDisplayIsFullscreen <;> cases fullscreen <;> simp
  · intro hcond
    simp only [specInPlaceCondition] at hcond
    simp only [MainWindow.updateDisplay, hdiff, hcond]
    cases h : env.isNeeded fullscreen renderToMain <;> simp [h]

theorem c3_inplace_vs_recreate_witness :
    (MainWindow.updateDisplay ⟨fun _ _ => false, false, false, false, true, true⟩
        ⟨false, false, false⟩ true false).1 = UpdateAction.inPlaceTransition :=
  ((c3_inplace_vs_recreate ⟨fun _ _ => false, false, false, false, true, true⟩
      ⟨false, false, false⟩ true false rfl).1 rfl).1

theorem callOp_onEmu_immediate (env : Env) (op : LifecycleOp) (s : EmuState) :
    (EmuThread.callOp env true op s).returnedImmediately = true := by
  cases op <;>
    simp only [EmuThread.callOp, EmuThread.startVM, EmuThread.setVMPaused,
      EmuThread.shutdownVM, EmuThread.resetVM, EmuThread.loadStateFromSlot,
      EmuThread.saveStateToSlot, EmuThread.changeDisc, EmuThread.applySettings,
      EmuThread.setFullscreen, Bool.not_true, Bool.false_eq_true, if_false] <;>
    (repeat' split) <;> rfl

/-- C1 fails as stated: shutdownVM with blocking set, called from a thread
other than the execution thread while a machine is loaded, enqueues the
identical operation but then pumps the caller's event loop until the machine
is destroyed instead of returning immediately. -/
theorem c1_thread_agnostic_cex :
    (EmuThread.shutdownVM false true true { vmState := some VMState.Running }).state =
      enqueueOp (LifecycleOp.shutdownVM true true) { vmState := some VMState.Running } ∧
    (EmuThread.shutdownVM false true true
        { vmState := some VMState.Running }).returnedImmediately = false := by
  decide

/-- C1 amended: every public lifecycle operation auto-detects the calling
thread.  On the execution thread the body runs in place; from any other
thread the identical operation with the same arguments is appended to the
execution thread's queue with no other state change, and its later execution
on the execution thread has exactly the effect of the direct call, so the
observable effect on the machine state is the same function of the arguments
regardless of the calling thread.  Every such cross-thread call returns
immediately, except shutdownVM with blocking set while a machine is loaded,
which pumps the caller's event loop until the machine is destroyed before
returning. -/
theorem c1_thread_agnostic_amended :
    ∀ (env : Env) (op : LifecycleOp) (s : EmuState), s.queue = [] →
      (EmuThread.callOp env false op s).state = enqueueOp op s ∧
      EmuThread.drainOne env (EmuThread.callOp env false op s).state =
        (EmuThread.callOp env true op s).state ∧
      (EmuThread.callOp env false op s).returnedImmediately =
        !(op.isBlockingShutdown && s.hasVM) ∧
      (EmuThread.callOp env true op s).returnedImmediately = true := by
  intro env op s hq
  obtain ⟨vs, fs, rtm, qu, q, em, ca, ft⟩ := s
  replace hq : q = [] := hq
  subst hq
  refine ⟨?_, ?_, ?_, callOp_onEmu_immediate env op _⟩
  · cases op <;> rfl
  · cases op <;> rfl
  · cases op <;> rfl

theorem c1_thread_agnostic_amended_witness :
    (EmuThread.callOp ⟨false, true, true⟩ false LifecycleOp.resetVM {}).state =
      enqueueOp LifecycleOp.resetVM {} ∧
    EmuThread.drainOne ⟨false, true, true⟩
        (EmuThread.callOp ⟨false, true, true⟩ false LifecycleOp.resetVM {}).state =
      (EmuThread.callOp ⟨false, true, true⟩ true LifecycleOp.resetVM {}).state ∧
    (EmuThread.callOp ⟨false, true, true⟩ false
        LifecycleOp.resetVM {}).returnedImmediately =
      !(LifecycleOp.resetVM.isBlockingShutdown && EmuState.hasVM {}) ∧
    (EmuThread.callOp ⟨false, true, true⟩ true
        LifecycleOp.resetVM {}).returnedImmediately = true :=
  c1_thread_agnostic_amended ⟨false, true, true⟩ LifecycleOp.resetVM {} rfl
